import Mathlib

/-!
Formal model of the in-memory contact directory: field validation (Phone,
Birthday), Record and AddressBook operations, the birthday-window query and
the command handlers, shallowly embedded from the source file last_task.py.
Exceptions become an explicit error type, mutation becomes functional update,
and the runtime services the source calls (the digit test, date parsing, the
tuple-unpacking failure) are embedded from their documented behaviour.
-/

/-- Error classes a handler body can raise; the wrapper installed by the
decorator translates each class to a user-facing string. -/
inductive PyError where
  | valueError (msg : String)
  | keyError
  | indexError
deriving DecidableEq

/-- Translation performed by the input_error wrapper: a valueError yields its
own message, a keyError yields "Contact not found.", an indexError yields
"Invalid command format.". -/
def handleError : PyError → String
  | .valueError m => m
  | .keyError => "Contact not found."
  | .indexError => "Invalid command format."

/-- Character test behind the phone validator. The source calls the runtime
string digit test, which accepts every Unicode decimal or digit character,
not only the ASCII digits; the model covers the ASCII digits together with
representative non-ASCII digit blocks (the superscript digits, the
Arabic-Indic, Extended Arabic-Indic, Devanagari and fullwidth decimal
digits), which is enough for every string considered in this development. -/
def pyCharIsDigit (c : Char) : Bool :=
  c.isDigit || decide (c = '²' ∨ c = '³' ∨ c = '¹' ∨
    (0x660 ≤ c.toNat ∧ c.toNat ≤ 0x669) ∨
    (0x6F0 ≤ c.toNat ∧ c.toNat ≤ 0x6F9) ∨
    (0x966 ≤ c.toNat ∧ c.toNat ≤ 0x96F) ∨
    (0xFF10 ≤ c.toNat ∧ c.toNat ≤ 0xFF19))

/-- The runtime digit test on a whole string: nonempty and every character a
digit in the sense of pyCharIsDigit. -/
def pyIsDigit (s : String) : Bool :=
  !s.data.isEmpty && s.data.all pyCharIsDigit

/-- A phone field: the wrapped string value. -/
structure Phone where
  value : String
deriving DecidableEq

/-- Phone construction from the source: raise the fixed format message unless
the digit test passes and the length is exactly ten, else store the string. -/
def Phone.make (value : String) : Except String Phone :=
  if pyIsDigit value = false ∨ value.length ≠ 10 then
    .error "Invalid phone number format. Must be 10 digits."
  else
    .ok ⟨value⟩

/-- The condition under which Phone construction succeeds. -/
def validPhone (s : String) : Bool :=
  pyIsDigit s && decide (s.length = 10)

/-- Gregorian leap-year rule used by the runtime date type. -/
def isLeap (y : Nat) : Bool :=
  decide (y % 4 = 0 ∧ (y % 100 ≠ 0 ∨ y % 400 = 0))

/-- Length of a month in a given year, as the runtime date type checks it. -/
def daysInMonth (y m : Nat) : Nat :=
  if m = 2 then (if isLeap y then 29 else 28)
  else if m = 4 ∨ m = 6 ∨ m = 9 ∨ m = 11 then 30
  else 31

/-- Split a character list at every dot, keeping empty pieces. -/
def splitDots : List Char → List (List Char)
  | [] => [[]]
  | c :: rest =>
    if c = '.' then [] :: splitDots rest
    else
      match splitDots rest with
      | h :: t => (c :: h) :: t
      | [] => [[c]]

/-- Numeric value of a list of ASCII digit characters. -/
def digitsVal (cs : List Char) : Nat :=
  cs.foldl (fun n c => 10 * n + (c.toNat - 48)) 0

/-- Date parsing for the format DD.MM.YYYY as the runtime implements it: a
one- or two-digit day with value 1..31, a one- or two-digit month with value
1..12 and an exactly four-digit year, separated by literal dots consuming the
whole string, followed by calendar validation of the day against the month
length and of the year being at least one. Digit positions are modelled as
ASCII digits. -/
def parseDMY (s : String) : Option (Nat × Nat × Nat) :=
  match splitDots s.data with
  | [ds, ms, ys] =>
    if ds.all Char.isDigit ∧ ms.all Char.isDigit ∧ ys.all Char.isDigit ∧
        (ds.length = 1 ∨ ds.length = 2) ∧ (ms.length = 1 ∨ ms.length = 2) ∧
        ys.length = 4 then
      let d := digitsVal ds
      let m := digitsVal ms
      let y := digitsVal ys
      if 1 ≤ d ∧ d ≤ 31 ∧ 1 ≤ m ∧ m ≤ 12 ∧ 1 ≤ y ∧ d ≤ daysInMonth y m then
        some (d, m, y)
      else none
    else none
  | _ => none

/-- A birthday field: the original string, which the class constructor has
checked to be parseable. -/
structure Birthday where
  value : String
  valid : (parseDMY value).isSome = true

/-- Birthday construction from the source: validate by parsing, store the
original string unchanged on success, raise the fixed message otherwise. -/
def Birthday.make (value : String) : Except String Birthday :=
  match h : parseDMY value with
  | some _ => .ok ⟨value, by rw [h]; rfl⟩
  | none => .error "Invalid date format. Please use DD.MM.YYYY."

/-- A contact record: name, ordered phone list, optional birthday. -/
structure Record where
  name : String
  phones : List Phone
  birthday : Option Birthday

/-- Record.add_phone: construct a Phone, append it and confirm, or return the
construction failure message inline, leaving the list unchanged. -/
def Record.add_phone (r : Record) (phone : String) : Record × String :=
  match Phone.make phone with
  | .ok ph => ({r with phones := r.phones ++ [ph]}, "Phone " ++ ph.value ++ " added.")
  | .error e => (r, e)

/-- Loop of Record.remove_phone over the phone list: drop the first phone
whose value matches, reporting removed or not found. -/
def removePhoneList (phone : String) : List Phone → List Phone × String
  | [] => ([], "Phone " ++ phone ++ " not found.")
  | p :: rest =>
    if p.value = phone then (rest, "Phone " ++ phone ++ " removed.")
    else
      let pr := removePhoneList phone rest
      (p :: pr.1, pr.2)

/-- Record.remove_phone. -/
def Record.remove_phone (r : Record) (phone : String) : Record × String :=
  let pr := removePhoneList phone r.phones
  ({r with phones := pr.1}, pr.2)

/-- Loop of Record.edit_phone over the phone list: at the first phone whose
value matches the old value, construct a Phone from the new value and replace
in place, or return the construction failure message with the list untouched;
report not found when no phone matches. -/
def editPhoneList (old new : String) : List Phone → List Phone × String
  | [] => ([], "Phone " ++ old ++ " not found.")
  | p :: rest =>
    if p.value = old then
      match Phone.make new with
      | .ok np => (np :: rest, "Phone " ++ old ++ " edited to " ++ new ++ ".")
      | .error e => (p :: rest, e)
    else
      let pr := editPhoneList old new rest
      (p :: pr.1, pr.2)

/-- Record.edit_phone. -/
def Record.edit_phone (r : Record) (old new : String) : Record × String :=
  let pr := editPhoneList old new r.phones
  ({r with phones := pr.1}, pr.2)

/-- Record.add_birthday: set the birthday if unset, propagating the Birthday
construction failure; raise the already-set message otherwise. -/
def Record.add_birthday (r : Record) (date : String) : Except String Record :=
  match r.birthday with
  | none =>
    match Birthday.make date with
    | .ok b => .ok {r with birthday := some b}
    | .error e => .error e
  | some _ => .error "Birthday already set."

/-- Record.show_birthday: the birthday line, or the no-birthday sentinel. -/
def Record.show_birthday (r : Record) : String :=
  match r.birthday with
  | some b => "Birthday: " ++ b.value
  | none => "No birthday set."

/-- Record construction: empty phone list and no birthday, then add the phone
when one is given and truthy (a nonempty string), discarding the inline
message add_phone returns; then add the birthday when one is given and
truthy, propagating its construction failure. -/
def Record.init (name : String) (phone : Option String) (birthday : Option String) :
    Except String Record :=
  let r0 : Record := ⟨name, [], none⟩
  let r1 := match phone with
    | some p => if p ≠ "" then (r0.add_phone p).1 else r0
    | none => r0
  match birthday with
  | some b =>
    if b ≠ "" then r1.add_birthday b else .ok r1
  | none => .ok r1

/-- The address book: keyed pairs in insertion order, as the dictionary in
the source keeps them. -/
structure AddressBook where
  data : List (String × Record)

/-- Dictionary assignment: replace the value at an existing key in place,
keeping its position, or append a fresh pair at the end. -/
def dictSet : List (String × Record) → String → Record → List (String × Record)
  | [], k, v => [(k, v)]
  | (k', v') :: rest, k, v =>
    if k' = k then (k, v) :: rest else (k', v') :: dictSet rest k v

/-- AddressBook.add_record: dictionary assignment under the record name. -/
def AddressBook.add_record (book : AddressBook) (r : Record) : AddressBook :=
  ⟨dictSet book.data r.name r⟩

/-- AddressBook.find: dictionary lookup, absent as none. -/
def AddressBook.find (book : AddressBook) (name : String) : Option Record :=
  (book.data.find? (fun kv => kv.1 == name)).map (fun kv => kv.2)

/-- An instant of the runtime datetime type: proleptic Gregorian ordinal day
and seconds within the day. -/
structure PyDateTime where
  days : Int
  secs : Nat
  secs_lt : secs < 86400

/-- Weekday with Monday as zero, as the runtime defines it from the ordinal. -/
def PyDateTime.weekday (t : PyDateTime) : Int :=
  (t.days + 6) % 7

/-- Adding a whole number of days keeps the time of day. -/
def PyDateTime.addDays (t : PyDateTime) (k : Int) : PyDateTime :=
  ⟨t.days + k, t.secs, t.secs_lt⟩

/-- Datetime comparison: by ordinal day, then by time within the day. -/
def PyDateTime.leB (a b : PyDateTime) : Bool :=
  decide (a.days < b.days ∨ (a.days = b.days ∧ a.secs ≤ b.secs))

/-- Days in all years before year y (proleptic Gregorian). -/
def daysBeforeYear (y : Nat) : Nat :=
  365 * (y - 1) + (y - 1) / 4 - (y - 1) / 100 + (y - 1) / 400

/-- Days in all months of year y before month m. -/
def daysBeforeMonth (y m : Nat) : Nat :=
  (List.range (m - 1)).foldl (fun acc i => acc + daysInMonth y (i + 1)) 0

/-- Proleptic Gregorian ordinal of a calendar date, day one being the first
of January of year one. -/
def ymd2ord (y m d : Nat) : Nat :=
  daysBeforeYear y + daysBeforeMonth y m + d

/-- The instant at midnight of a parsed (day, month, year) triple. -/
def midnightOf (dmy : Nat × Nat × Nat) : PyDateTime :=
  ⟨(ymd2ord dmy.2.2 dmy.2.1 dmy.1 : Nat), 0, by decide⟩

/-- Loop body of get_birthdays_per_week: given the window bounds, inspect one
stored pair and append its (name, birthday string) when the stored date, year
taken literally, lies inside the window. -/
def gbLoopBody (ws we : PyDateTime) (acc : List (String × String))
    (kv : String × Record) : List (String × String) :=
  match kv.2.birthday with
  | none => acc
  | some b =>
    let birthday_date := midnightOf ((parseDMY b.value).get b.valid)
    if ws.leB birthday_date && birthday_date.leB we then
      acc ++ [(kv.2.name, b.value)]
    else acc

/-- AddressBook.get_birthdays_per_week: the window starts at the reference
instant plus (6 minus its weekday) plus 7 days, ends 6 days later, and the
stored pairs are scanned in order, collecting those whose literal stored date
lies inside the window. -/
def AddressBook.get_birthdays_per_week (book : AddressBook) (now : PyDateTime) :
    List (String × String) :=
  let next_week_start := now.addDays ((6 - now.weekday) + 7)
  let next_week_end := next_week_start.addDays 6
  book.data.foldl (gbLoopBody next_week_start next_week_end) []

/-- Window membership as the claim words it: start is the reference instant
plus (6 minus the reference weekday) plus 7 days, end is the start plus 6
days, and the stored date, with the year taken literally, lies between the
bounds inclusively. -/
def inBirthdayWindow (now : PyDateTime) (b : Birthday) : Bool :=
  let ws := now.addDays ((6 - now.weekday) + 7)
  let we := ws.addDays 6
  let bd := midnightOf ((parseDMY b.value).get b.valid)
  ws.leB bd && bd.leB we

/-- The query result as the claim words it: in iteration order over the
stored records, exactly the (name, birthday string) pairs whose stored date
lies in the window. -/
def upcomingWindowSpec (now : PyDateTime) (book : AddressBook) :
    List (String × String) :=
  book.data.foldr
    (fun kv acc =>
      match kv.2.birthday with
      | some b => if inBirthdayWindow now b then (kv.2.name, b.value) :: acc else acc
      | none => acc)
    []

/-- Body of the add handler: with exactly two arguments build a Record from
name and phone, store it and confirm; otherwise raise a valueError asking for
name and phone. -/
def add_contact_raw (args : List String) (book : AddressBook) :
    Except PyError (String × AddressBook) :=
  match args with
  | [name, phone] =>
    match Record.init name (some phone) none with
    | .ok record => .ok ("Contact added.", book.add_record record)
    | .error e => .error (.valueError e)
  | _ => .error (.valueError "Give me name and phone please.")

/-- The add handler after the input_error wrapper; on a raised error the book
is unchanged. -/
def add_contact (args : List String) (book : AddressBook) : String × AddressBook :=
  match add_contact_raw args book with
  | .ok res => res
  | .error e => (handleError e, book)

/-- Body of the change handler: with exactly two arguments look the name up,
raising keyError when absent; evaluate the Phone construction first (its
failure raises a valueError), then assign it at index zero of the phone list,
which raises indexError when the list is empty; any other argument count
raises indexError. -/
def change_contact_raw (args : List String) (book : AddressBook) :
    Except PyError (String × AddressBook) :=
  match args with
  | [name, new_phone] =>
    match book.find name with
    | some contact =>
      match Phone.make new_phone with
      | .error e => .error (.valueError e)
      | .ok ph =>
        match contact.phones with
        | [] => .error .indexError
        | _ :: rest =>
          .ok ("Contact updated.", ⟨dictSet book.data name {contact with phones := ph :: rest}⟩)
    | none => .error .keyError
  | _ => .error .indexError

/-- The change handler after the input_error wrapper; on a raised error the
book is unchanged. -/
def change_contact (args : List String) (book : AddressBook) : String × AddressBook :=
  match change_contact_raw args book with
  | .ok res => res
  | .error e => (handleError e, book)

/-- Body of the show_birthday handler: the source unpacks the argument list
into a single name, and runtime tuple unpacking raises a valueError carrying
the fixed unpacking message when the list does not have exactly one element;
with one name, an unknown contact yields the inline not-found string and a
known one its birthday line. -/
def show_birthday_raw (args : List String) (book : AddressBook) :
    Except PyError String :=
  match args with
  | [name] =>
    match book.find name with
    | some contact => .ok contact.show_birthday
    | none => .ok ("Contact " ++ name ++ " not found.")
  | [] => .error (.valueError "not enough values to unpack (expected 1, got 0)")
  | _ => .error (.valueError "too many values to unpack (expected 1)")

/-- The show_birthday handler after the input_error wrapper. -/
def show_birthday (args : List String) (book : AddressBook) : String :=
  match show_birthday_raw args book with
  | .ok s => s
  | .error e => handleError e

/-- Phone-list operations a Record exposes. -/
inductive RecOp where
  | addPh (s : String)
  | editPh (o n : String)
  | removePh (s : String)

/-- Apply one phone-list operation to a record, discarding the message. -/
def Record.applyOp (r : Record) : RecOp → Record
  | .addPh s => (r.add_phone s).1
  | .editPh o n => (r.edit_phone o n).1
  | .removePh s => (r.remove_phone s).1

/-- Every phone stored in the record satisfies the ten-digit format. -/
def Record.phonesOk (r : Record) : Bool :=
  r.phones.all (fun p => validPhone p.value)

/-- Every phone stored anywhere in the book satisfies the format. -/
def AddressBook.phonesOk (book : AddressBook) : Bool :=
  book.data.all (fun kv => kv.2.phonesOk)

/-- Characterization of Phone construction by the success condition. -/
theorem phone_make_eq (s : String) :
    Phone.make s = if validPhone s = true then .ok ⟨s⟩
      else .error "Invalid phone number format. Must be 10 digits." := by
  unfold Phone.make validPhone
  by_cases h1 : pyIsDigit s = true <;> by_cases h2 : s.length = 10 <;>
    simp [h1, h2, Bool.not_eq_true] at *

/-- Phone construction succeeds on a valid string. -/
theorem phone_make_valid (s : String) (h : validPhone s = true) :
    Phone.make s = .ok ⟨s⟩ := by
  rw [phone_make_eq, if_pos h]

/-- Phone construction fails on an invalid string. -/
theorem phone_make_invalid (s : String) (h : validPhone s = false) :
    Phone.make s = .error "Invalid phone number format. Must be 10 digits." := by
  rw [phone_make_eq, if_neg (by simp [h])]

/-- A successful Phone construction stores the input, which is valid. -/
theorem phone_make_ok_inv {s : String} {p : Phone} (h : Phone.make s = .ok p) :
    p = ⟨s⟩ ∧ validPhone s = true := by
  rw [phone_make_eq] at h
  by_cases hv : validPhone s = true
  · rw [if_pos hv] at h
    exact ⟨(Except.ok.injEq _ _).mp h |>.symm ▸ rfl, hv⟩
  · rw [if_neg hv] at h
    exact absurd h (by simp)

/-- Dictionary assignment puts the value where lookup by that key finds it. -/
theorem dictSet_find (l : List (String × Record)) (k : String) (v : Record) :
    (dictSet l k v).find? (fun kv => kv.1 == k) = some (k, v) := by
  induction l with
  | nil => simp [dictSet]
  | cons hd tl ih =>
    obtain ⟨k', v'⟩ := hd
    by_cases h : k' = k
    · simp [dictSet, h]
    · simp [dictSet, h, List.find?, ih]

/-- Dictionary assignment preserves a pointwise property of the entries. -/
theorem dictSet_all (f : String × Record → Bool) (l : List (String × Record))
    (k : String) (v : Record) (hl : l.all f = true) (hv : f (k, v) = true) :
    (dictSet l k v).all f = true := by
  induction l with
  | nil => simp [dictSet, hv]
  | cons hd tl ih =>
    obtain ⟨k', v'⟩ := hd
    simp only [List.all_cons, Bool.and_eq_true] at hl
    by_cases h : k' = k
    · simp [dictSet, h, hv, hl.2]
    · simp [dictSet, h, hl.1, ih hl.2]

/-- A record found in a book with the phone invariant has the invariant. -/
theorem book_find_phonesOk (book : AddressBook) (name : String) (r : Record)
    (hb : book.phonesOk = true) (hf : book.find name = some r) :
    r.phonesOk = true := by
  unfold AddressBook.find at hf
  obtain ⟨kv, hkv, hkv2⟩ := Option.map_eq_some'.mp hf
  have hmem := List.mem_of_find?_eq_some hkv
  unfold AddressBook.phonesOk at hb
  have h2 := List.all_eq_true.mp hb kv hmem
  simpa [hkv2] using h2

/-- Appending a phone keeps every stored phone valid. -/
theorem add_phone_phonesOk (r : Record) (s : String) (h : r.phonesOk = true) :
    (r.add_phone s).1.phonesOk = true := by
  unfold Record.add_phone
  cases hm : Phone.make s with
  | error e => simpa using h
  | ok p =>
    obtain ⟨rfl, hv⟩ := phone_make_ok_inv hm
    unfold Record.phonesOk at h ⊢
    simp [List.all_append, h, hv]

/-- Removing a phone keeps every stored phone valid. -/
theorem removePhoneList_all (phone : String) (ps : List Phone)
    (h : ps.all (fun p => validPhone p.value) = true) :
    (removePhoneList phone ps).1.all (fun p => validPhone p.value) = true := by
  induction ps with
  | nil => simp [removePhoneList]
  | cons p rest ih =>
    simp only [List.all_cons, Bool.and_eq_true] at h
    unfold removePhoneList
    by_cases hp : p.value = phone
    · simp [hp, h.2]
    · simp [hp, h.1, ih h.2]

/-- Replacing a phone by a validated one keeps every stored phone valid. -/
theorem editPhoneList_all (old new : String) (ps : List Phone)
    (h : ps.all (fun p => validPhone p.value) = true) :
    (editPhoneList old new ps).1.all (fun p => validPhone p.value) = true := by
  induction ps with
  | nil => simp [editPhoneList]
  | cons p rest ih =>
    simp only [List.all_cons, Bool.and_eq_true] at h
    unfold editPhoneList
    by_cases hp : p.value = old
    · have h1 : validPhone old = true := hp ▸ h.1
      cases hm : Phone.make new with
      | error e => simp [hp, hm, h1, h.2]
      | ok np =>
        obtain ⟨rfl, hv⟩ := phone_make_ok_inv hm
        simp [hp, hm, h.2, hv]
    · simp [hp, h.1, ih h.2]

/-- Each phone-list operation keeps every stored phone valid. -/
theorem applyOp_phonesOk (r : Record) (op : RecOp) (h : r.phonesOk = true) :
    (r.applyOp op).phonesOk = true := by
  cases op with
  | addPh s => exact add_phone_phonesOk r s h
  | editPh o n =>
    unfold Record.applyOp Record.edit_phone
    unfold Record.phonesOk at h ⊢
    simpa using editPhoneList_all o n r.phones h
  | removePh s =>
    unfold Record.applyOp Record.remove_phone
    unfold Record.phonesOk at h ⊢
    simpa using removePhoneList_all s r.phones h

/-- A sequence of phone-list operations keeps every stored phone valid. -/
theorem foldl_applyOp_phonesOk (ops : List RecOp) :
    ∀ r : Record, r.phonesOk = true → (ops.foldl Record.applyOp r).phonesOk = true := by
  induction ops with
  | nil => intro r h; simpa using h
  | cons op rest ih => intro r h; exact ih _ (applyOp_phonesOk r op h)

/-- The change handler keeps every phone stored in the book valid. -/
theorem change_contact_phonesOk (args : List String) (book : AddressBook)
    (h : book.phonesOk = true) : (change_contact args book).2.phonesOk = true := by
  rcases args with _ | ⟨name, _ | ⟨new_phone, _ | ⟨c, t⟩⟩⟩
  · simpa [change_contact, change_contact_raw] using h
  · simpa [change_contact, change_contact_raw] using h
  · cases hf : book.find name with
    | none => simpa [change_contact, change_contact_raw, hf] using h
    | some contact =>
      cases hm : Phone.make new_phone with
      | error e => simpa [change_contact, change_contact_raw, hf, hm] using h
      | ok ph =>
        cases hp : contact.phones with
        | nil => simpa [change_contact, change_contact_raw, hf, hm, hp] using h
        | cons p0 rest =>
          obtain ⟨rfl, hv⟩ := phone_make_ok_inv hm
          have hc : contact.phonesOk = true := book_find_phonesOk book name contact h hf
          have hrest : rest.all (fun p => validPhone p.value) = true := by
            unfold Record.phonesOk at hc
            rw [hp] at hc
            simp only [List.all_cons, Bool.and_eq_true] at hc
            exact hc.2
          have hnew : ({contact with phones := Phone.mk new_phone :: rest} : Record).phonesOk = true := by
            unfold Record.phonesOk
            simp [List.all_cons, hv, hrest]
          have hall : book.data.all (fun kv => kv.2.phonesOk) = true := h
          simpa [change_contact, change_contact_raw, hf, hm, hp, AddressBook.phonesOk] using
            dictSet_all _ book.data name _ hall hnew
  · simpa [change_contact, change_contact_raw] using h

/-- Splitting never yields an empty list of pieces. -/
theorem splitDots_ne_nil (cs : List Char) : splitDots cs ≠ [] := by
  induction cs with
  | nil => simp [splitDots]
  | cons c rest ih =>
    by_cases h : c = '.'
    · simp [splitDots, h]
    · cases hs : splitDots rest with
      | nil => simp [splitDots, h, hs]
      | cons a t => simp [splitDots, h, hs]

/-- A dot-free piece in front of the input lands in the first output piece. -/
theorem splitDots_prepend (a : List Char) (ha : ∀ c ∈ a, c ≠ '.') :
    ∀ (rest h : List Char) (t : List (List Char)), splitDots rest = h :: t →
      splitDots (a ++ rest) = (a ++ h) :: t := by
  induction a with
  | nil => intro rest h t hr; simpa using hr
  | cons c a' ih =>
    intro rest h t hr
    have hc : c ≠ '.' := ha c (by simp)
    have ha' : ∀ x ∈ a', x ≠ '.' := fun x hx => ha x (by simp [hx])
    have hrec := ih ha' rest h t hr
    simp [splitDots, hc, hrec]

/-- A dot-free list is a single piece. -/
theorem splitDots_no_dot (a : List Char) (ha : ∀ c ∈ a, c ≠ '.') :
    splitDots a = [a] := by
  have := splitDots_prepend a ha [] [] [] rfl
  simpa using this

/-- Two dots separating three dot-free pieces split into those pieces. -/
theorem splitDots_three (d m y : List Char) (hd : ∀ c ∈ d, c ≠ '.')
    (hm : ∀ c ∈ m, c ≠ '.') (hy : ∀ c ∈ y, c ≠ '.') :
    splitDots (d ++ '.' :: (m ++ '.' :: y)) = [d, m, y] := by
  have h1 : splitDots y = [y] := splitDots_no_dot y hy
  have h2 : splitDots ('.' :: y) = [] :: [y] := by simp [splitDots, h1]
  have h3 : splitDots (m ++ '.' :: y) = [m, y] := by
    have := splitDots_prepend m hm ('.' :: y) [] [y] h2
    simpa using this
  have h4 : splitDots ('.' :: (m ++ '.' :: y)) = [] :: [m, y] := by
    simp [splitDots, h3]
  have h5 := splitDots_prepend d hd ('.' :: (m ++ '.' :: y)) [] [m, y] h4
  simpa using h5

/-- An ASCII digit character is not a dot. -/
theorem digit_ne_dot (c : Char) (h : c.isDigit = true) : c ≠ '.' := by
  intro he
  rw [he] at h
  exact absurd h (by decide)

/-- When parsing succeeds, Birthday construction stores the original. -/
theorem birthday_make_some (s : String) (h : (parseDMY s).isSome = true) :
    (Birthday.make s).toOption.map Birthday.value = some s := by
  unfold Birthday.make
  split
  · rfl
  · rename_i heq
    rw [heq] at h
    exact absurd h (by simp)

/-- When parsing fails, Birthday construction raises the fixed message. -/
theorem birthday_make_none (s : String) (h : parseDMY s = none) :
    Birthday.make s = .error "Invalid date format. Please use DD.MM.YYYY." := by
  unfold Birthday.make
  split
  · rename_i heq
    rw [heq] at h
    exact absurd h (by simp)
  · rfl

/-- The accumulating scan of the stored pairs equals the accumulator followed
by the window filter written as a right fold. -/
theorem gb_fold_aux (now : PyDateTime) (l : List (String × Record)) : ∀ acc,
    l.foldl (gbLoopBody (now.addDays ((6 - now.weekday) + 7))
        ((now.addDays ((6 - now.weekday) + 7)).addDays 6)) acc
      = acc ++ l.foldr (fun kv acc => match kv.2.birthday with
          | some b => if inBirthdayWindow now b then (kv.2.name, b.value) :: acc else acc
          | none => acc) [] := by
  induction l with
  | nil => intro acc; simp
  | cons hd tl ih =>
    intro acc
    simp only [List.foldl_cons, List.foldr_cons]
    rw [ih]
    cases hb : hd.2.birthday with
    | none => simp [gbLoopBody, hb]
    | some b =>
      simp only [gbLoopBody, hb, inBirthdayWindow]
      split
      · simp
      · simp

/-- C1: for every reference instant and every stored book, the
upcoming-birthdays query uses the window starting at the reference instant
plus (6 minus the reference weekday) plus 7 days and ending 6 days later,
and returns, in iteration order over the stored records, exactly the
(name, birthday string) pairs whose full stored date, year taken literally,
lies inside that window inclusively at both ends. -/
theorem claim_C1_birthday_window (now : PyDateTime) (book : AddressBook) :
    book.get_birthdays_per_week now = upcomingWindowSpec now book := by
  unfold AddressBook.get_birthdays_per_week upcomingWindowSpec
  simpa using gb_fold_aux now book.data []

/-- C2 counterexample: the add handler called with a malformed phone still
answers with the success message, not with the inline error string. -/
theorem claim_C2_counterexample :
    (add_contact ["jane", "123"] ⟨[]⟩).1 = "Contact added." ∧
    validPhone "123" = false := by
  exact ⟨by decide, by decide⟩

/-- C2 amended: the add handler with two arguments and a malformed phone
still returns the success message, because Record construction discards the
inline error string of add_phone; the stored record has an empty phone
list. -/
theorem claim_C2_amended (name phone : String) (book : AddressBook)
    (h : validPhone phone = false) :
    add_contact [name, phone] book =
      ("Contact added.", book.add_record ⟨name, [], none⟩) := by
  have hinit : Record.init name (some phone) none = .ok ⟨name, [], none⟩ := by
    unfold Record.init
    by_cases hp : phone = ""
    · simp [hp]
    · simp only [hp, ne_eq, not_false_iff, if_true]
      unfold Record.add_phone
      rw [phone_make_invalid phone h]
  simp [add_contact, add_contact_raw, hinit]

/-- C2 witness. -/
theorem claim_C2_witness :
    add_contact ["jane", "123"] ⟨[]⟩ =
      ("Contact added.", AddressBook.add_record ⟨[]⟩ ⟨"jane", [], none⟩) :=
  claim_C2_amended "jane" "123" ⟨[]⟩ (by decide)

/-- C3 counterexample: a string of ten superscript-two characters passes the
runtime digit test, so Phone construction succeeds on it, although it does
not consist of ASCII digits. -/
theorem claim_C3_counterexample :
    Phone.make "²²²²²²²²²²" = .ok ⟨"²²²²²²²²²²"⟩ ∧
    ("²²²²²²²²²²".data.all Char.isDigit) = false := by
  exact ⟨rfl, by decide⟩

/-- C3 amended: Phone construction succeeds exactly when the runtime digit
test passes (a superset of all-ASCII-digits) and the length is exactly ten,
rendering the input unchanged; otherwise it fails with the fixed format
message; and every nonempty all-ASCII-digit string passes the test. -/
theorem claim_C3_amended (s : String) :
    (Phone.make s =
      if pyIsDigit s = true ∧ s.length = 10 then .ok ⟨s⟩
      else .error "Invalid phone number format. Must be 10 digits.") ∧
    (s.data ≠ [] → s.data.all Char.isDigit = true → pyIsDigit s = true) := by
  constructor
  · rw [phone_make_eq s]
    by_cases h : validPhone s = true
    · rw [if_pos h, if_pos (by simpa [validPhone] using h)]
    · rw [if_neg h, if_neg (by simpa [validPhone] using h)]
  · intro hne hall
    unfold pyIsDigit
    have h1 : s.data.isEmpty = false := by
      cases hs : s.data with
      | nil => exact absurd hs hne
      | cons a t => simp
    rw [h1]
    have h2 : s.data.all pyCharIsDigit = true := by
      rw [List.all_eq_true] at hall ⊢
      intro c hc
      have := hall c hc
      simp [pyCharIsDigit, this]
    simp [h2]

/-- C3 witness. -/
theorem claim_C3_witness :
    (Phone.make "0123456789" =
      if pyIsDigit "0123456789" = true ∧ "0123456789".length = 10 then .ok ⟨"0123456789"⟩
      else .error "Invalid phone number format. Must be 10 digits.") ∧
    pyIsDigit "0123456789" = true :=
  ⟨(claim_C3_amended "0123456789").1,
   (claim_C3_amended "0123456789").2 (by decide) (by decide)⟩

/-- C5: once a Record has a Birthday, adding another one, with any argument,
fails with the already-set message, producing no updated record, so the
stored Birthday is unchanged. -/
theorem claim_C5_birthday_already_set (r : Record) (b : Birthday) (d : String)
    (h : r.birthday = some b) :
    r.add_birthday d = .error "Birthday already set." := by
  unfold Record.add_birthday
  rw [h]

/-- C5 witness. -/
theorem claim_C5_witness :
    Record.add_birthday ⟨"jane", [], some ⟨"01.01.2000", by decide⟩⟩ "02.02.2002" =
      .error "Birthday already set." :=
  claim_C5_birthday_already_set _ ⟨"01.01.2000", by decide⟩ _ rfl

/-- Editing towards an invalid value leaves the phone list unchanged and
returns the validation message when the old value occurs in the list. -/
theorem editPhoneList_invalid (old new : String) (ps : List Phone)
    (hmem : ∃ p ∈ ps, p.value = old) (hnew : validPhone new = false) :
    editPhoneList old new ps =
      (ps, "Invalid phone number format. Must be 10 digits.") := by
  induction ps with
  | nil => simp at hmem
  | cons p rest ih =>
    unfold editPhoneList
    by_cases h : p.value = old
    · rw [if_pos h, phone_make_invalid new hnew]
    · rw [if_neg h]
      obtain ⟨q, hq, hqv⟩ := hmem
      rcases List.mem_cons.mp hq with rfl | hq'
      · exact absurd hqv h
      · simp [ih ⟨q, hq', hqv⟩]

/-- C6: for every Record holding some phone equal to the old value, editing
it towards an invalid new value returns the validation failure message and
leaves the record, in particular its phone list, entirely unchanged. -/
theorem claim_C6_edit_invalid (r : Record) (old new : String)
    (hmem : ∃ p ∈ r.phones, p.value = old) (hnew : validPhone new = false) :
    r.edit_phone old new = (r, "Invalid phone number format. Must be 10 digits.") := by
  unfold Record.edit_phone
  rw [editPhoneList_invalid old new r.phones hmem hnew]

/-- C6 witness. -/
theorem claim_C6_witness :
    Record.edit_phone ⟨"jane", [⟨"0123456789"⟩], none⟩ "0123456789" "123" =
      (⟨"jane", [⟨"0123456789"⟩], none⟩, "Invalid phone number format. Must be 10 digits.") :=
  claim_C6_edit_invalid ⟨"jane", [⟨"0123456789"⟩], none⟩ "0123456789" "123"
    ⟨⟨"0123456789"⟩, by simp, rfl⟩ (by decide)

/-- C7: adding a record then looking its name up returns that record, and
re-adding under the same name replaces the prior entry, with no failure
mode, so a subsequent lookup returns only the second record. -/
theorem claim_C7_add_find :
    (∀ (book : AddressBook) (r : Record),
        (book.add_record r).find r.name = some r) ∧
    (∀ (book : AddressBook) (r1 r2 : Record), r1.name = r2.name →
        ((book.add_record r1).add_record r2).find r2.name = some r2) := by
  have base : ∀ (book : AddressBook) (r : Record),
      (book.add_record r).find r.name = some r := by
    intro book r
    unfold AddressBook.add_record AddressBook.find
    rw [dictSet_find]
    rfl
  exact ⟨base, fun book r1 r2 _ => base (book.add_record r1) r2⟩

/-- C7 witness. -/
theorem claim_C7_witness :
    ((AddressBook.add_record ⟨[]⟩ ⟨"a", [], none⟩).find "a" = some ⟨"a", [], none⟩) ∧
    (((AddressBook.add_record ⟨[]⟩ ⟨"a", [⟨"0123456789"⟩], none⟩).add_record
        ⟨"a", [⟨"1111111111"⟩], none⟩).find "a" = some ⟨"a", [⟨"1111111111"⟩], none⟩) :=
  ⟨claim_C7_add_find.1 ⟨[]⟩ ⟨"a", [], none⟩,
   claim_C7_add_find.2 ⟨[]⟩ ⟨"a", [⟨"0123456789"⟩], none⟩ ⟨"a", [⟨"1111111111"⟩], none⟩ rfl⟩

/-- C8: starting from a record, or a book, in which every stored Phone is a
ten-digit string, any sequence of add, edit and remove phone operations and
any call of the change handler keeps every stored Phone a ten-digit
string. -/
theorem claim_C8_phone_invariant :
    (∀ (r : Record) (ops : List RecOp), r.phonesOk = true →
        (ops.foldl Record.applyOp r).phonesOk = true) ∧
    (∀ (args : List String) (book : AddressBook), book.phonesOk = true →
        (change_contact args book).2.phonesOk = true) :=
  ⟨fun r ops h => foldl_applyOp_phonesOk ops r h,
   fun args book h => change_contact_phonesOk args book h⟩

/-- C8 witness. -/
theorem claim_C8_witness :
    (List.foldl Record.applyOp ⟨"jane", [], none⟩
        [RecOp.addPh "0123456789", RecOp.editPh "0123456789" "999",
         RecOp.removePh "0123456789"]).phonesOk = true ∧
    (change_contact ["jane", "1112223333"]
        ⟨[("jane", ⟨"jane", [⟨"0123456789"⟩], none⟩)]⟩).2.phonesOk = true :=
  ⟨claim_C8_phone_invariant.1 ⟨"jane", [], none⟩ _ (by decide),
   claim_C8_phone_invariant.2 ["jane", "1112223333"] _ (by decide)⟩

/-- Parsing through a three-piece split reduces to the piece checks. -/
theorem parseDMY_split (s : String) (ds ms ys : List Char)
    (h : splitDots s.data = [ds, ms, ys]) :
    parseDMY s =
      (if ds.all Char.isDigit ∧ ms.all Char.isDigit ∧ ys.all Char.isDigit ∧
          (ds.length = 1 ∨ ds.length = 2) ∧ (ms.length = 1 ∨ ms.length = 2) ∧
          ys.length = 4 then
        if 1 ≤ digitsVal ds ∧ digitsVal ds ≤ 31 ∧ 1 ≤ digitsVal ms ∧
            digitsVal ms ≤ 12 ∧ 1 ≤ digitsVal ys ∧
            digitsVal ds ≤ daysInMonth (digitsVal ys) (digitsVal ms) then
          some (digitsVal ds, digitsVal ms, digitsVal ys)
        else none
      else none) := by
  unfold parseDMY
  rw [h]

/-- C4 counterexample: the one-digit day and month string parses and is
stored verbatim, although its length 8 shows it is not in two-digit
DD.MM.YYYY form. -/
theorem claim_C4_counterexample :
    (Birthday.make "5.5.1990").toOption.map Birthday.value = some "5.5.1990" ∧
    "5.5.1990".length = 8 := by
  exact ⟨by decide, by decide⟩

/-- C4 amended: over ASCII digit pieces, Birthday construction succeeds
exactly when the day piece has one or two digits with value 1 to 31, the
month piece one or two digits with value 1 to 12, the year piece exactly
four digits with value at least 1, and the day fits the month length for
that year; on success the stored value is the original string unchanged,
otherwise construction fails with the fixed format message. -/
theorem claim_C4_amended (d m y : List Char)
    (hd : ∀ c ∈ d, c.isDigit = true) (hm : ∀ c ∈ m, c.isDigit = true)
    (hy : ∀ c ∈ y, c.isDigit = true) :
    (parseDMY ⟨d ++ '.' :: (m ++ '.' :: y)⟩ =
      if (d.length = 1 ∨ d.length = 2) ∧ (m.length = 1 ∨ m.length = 2) ∧
          y.length = 4 ∧ 1 ≤ digitsVal d ∧ digitsVal d ≤ 31 ∧
          1 ≤ digitsVal m ∧ digitsVal m ≤ 12 ∧ 1 ≤ digitsVal y ∧
          digitsVal d ≤ daysInMonth (digitsVal y) (digitsVal m)
      then some (digitsVal d, digitsVal m, digitsVal y) else none) ∧
    ((parseDMY ⟨d ++ '.' :: (m ++ '.' :: y)⟩).isSome = true →
      (Birthday.make ⟨d ++ '.' :: (m ++ '.' :: y)⟩).toOption.map Birthday.value =
        some ⟨d ++ '.' :: (m ++ '.' :: y)⟩) ∧
    (parseDMY ⟨d ++ '.' :: (m ++ '.' :: y)⟩ = none →
      Birthday.make ⟨d ++ '.' :: (m ++ '.' :: y)⟩ =
        .error "Invalid date format. Please use DD.MM.YYYY.") := by
  refine ⟨?_, birthday_make_some _, birthday_make_none _⟩
  have hsplit : splitDots (⟨d ++ '.' :: (m ++ '.' :: y)⟩ : String).data = [d, m, y] :=
    splitDots_three d m y (fun c hc => digit_ne_dot c (hd c hc))
      (fun c hc => digit_ne_dot c (hm c hc)) (fun c hc => digit_ne_dot c (hy c hc))
  rw [parseDMY_split _ d m y hsplit]
  have halld : d.all Char.isDigit = true := List.all_eq_true.mpr hd
  have hallm : m.all Char.isDigit = true := List.all_eq_true.mpr hm
  have hally : y.all Char.isDigit = true := List.all_eq_true.mpr hy
  by_cases hL : (d.length = 1 ∨ d.length = 2) ∧ (m.length = 1 ∨ m.length = 2) ∧
      y.length = 4
  · rw [if_pos ⟨halld, hallm, hally, hL.1, hL.2.1, hL.2.2⟩]
    by_cases hR : 1 ≤ digitsVal d ∧ digitsVal d ≤ 31 ∧ 1 ≤ digitsVal m ∧
        digitsVal m ≤ 12 ∧ 1 ≤ digitsVal y ∧
        digitsVal d ≤ daysInMonth (digitsVal y) (digitsVal m)
    · rw [if_pos hR, if_pos ⟨hL.1, hL.2.1, hL.2.2, hR.1, hR.2.1, hR.2.2.1,
        hR.2.2.2.1, hR.2.2.2.2.1, hR.2.2.2.2.2⟩]
    · rw [if_neg hR, if_neg (fun hC => hR ⟨hC.2.2.2.1, hC.2.2.2.2.1,
        hC.2.2.2.2.2.1, hC.2.2.2.2.2.2.1, hC.2.2.2.2.2.2.2.1,
        hC.2.2.2.2.2.2.2.2⟩)]
  · rw [if_neg (fun hC => hL ⟨hC.2.2.2.1, hC.2.2.2.2.1, hC.2.2.2.2.2⟩),
      if_neg (fun hC => hL ⟨hC.1, hC.2.1, hC.2.2.1⟩)]

/-- C4 witness. -/
theorem claim_C4_witness :
    parseDMY ⟨['5'] ++ '.' :: (['5'] ++ '.' :: ['1', '9', '9', '0'])⟩ =
      some (5, 5, 1990) := by
  rw [(claim_C4_amended ['5'] ['5'] ['1', '9', '9', '0']
    (by decide) (by decide) (by decide)).1]
  decide

/-- C9 counterexample: with zero arguments the show_birthday body raises a
valueError carrying the unpacking message, and the wrapped handler answers
with that message, not with "Invalid command format.". -/
theorem claim_C9_counterexample :
    show_birthday_raw [] ⟨[]⟩ =
      .error (.valueError "not enough values to unpack (expected 1, got 0)") ∧
    show_birthday [] ⟨[]⟩ ≠ "Invalid command format." := by
  exact ⟨rfl, by decide⟩

/-- C9 amended: a call of the show_birthday handler with an argument count
other than one fails through the valueError class of tuple unpacking, so the
wrapper returns the unpacking message of the runtime, not the indexError
message "Invalid command format.". -/
theorem claim_C9_amended (args : List String) (book : AddressBook)
    (h : args.length ≠ 1) :
    show_birthday args book =
      (if args.length = 0 then "not enough values to unpack (expected 1, got 0)"
       else "too many values to unpack (expected 1)") := by
  rcases args with _ | ⟨a, _ | ⟨b, t⟩⟩
  · rfl
  · exact absurd rfl h
  · rfl

/-- C9 witness. -/
theorem claim_C9_witness :
    show_birthday ["a", "b"] ⟨[]⟩ =
      (if (["a", "b"] : List String).length = 0 then
        "not enough values to unpack (expected 1, got 0)"
       else "too many values to unpack (expected 1)") :=
  claim_C9_amended ["a", "b"] ⟨[]⟩ (by decide)

/-- C10 counterexample: on a record with an empty phone list, the change
handler called with an invalid new phone answers with the phone validation
message, because Phone construction is evaluated before the indexing, so the
answer is not "Invalid command format.". -/
theorem claim_C10_counterexample :
    change_contact ["jane", "123"] ⟨[("jane", ⟨"jane", [], none⟩)]⟩ =
      ("Invalid phone number format. Must be 10 digits.",
        ⟨[("jane", ⟨"jane", [], none⟩)]⟩) := by
  rfl

/-- C10 amended: on a stored record with an empty phone list, the change
handler with a valid ten-digit new phone returns "Invalid command format."
from the indexError of indexing the empty list, while with an invalid new
phone it returns the phone validation message from the valueError of Phone
construction; in both cases the book is unchanged. -/
theorem claim_C10_amended (book : AddressBook) (name new : String) (r : Record)
    (hfind : book.find name = some r) (hempty : r.phones = []) :
    change_contact [name, new] book =
      ((if validPhone new = true then "Invalid command format."
        else "Invalid phone number format. Must be 10 digits."), book) := by
  by_cases hv : validPhone new = true
  · simp [change_contact, change_contact_raw, hfind, hempty,
      phone_make_valid new hv, hv, handleError]
  · have hv' : validPhone new = false := by
      cases hb : validPhone new
      · rfl
      · exact absurd hb hv
    simp [change_contact, change_contact_raw, hfind,
      phone_make_invalid new hv', hv, handleError]

/-- C10 witness. -/
theorem claim_C10_witness :
    change_contact ["jane", "1111111111"] ⟨[("jane", ⟨"jane", [], none⟩)]⟩ =
      ((if validPhone "1111111111" = true then "Invalid command format."
        else "Invalid phone number format. Must be 10 digits."),
        ⟨[("jane", ⟨"jane", [], none⟩)]⟩) :=
  claim_C10_amended ⟨[("jane", ⟨"jane", [], none⟩)]⟩ "jane" "1111111111"
    ⟨"jane", [], none⟩ rfl rfl
